import Mathlib

/-
Verification development for the CrossChainRegistry ICP canister
(CrossChainRegistry_backend). The definitions below are a shallow
embedding of the Rust sources: pure functions are translated directly,
stateful entry points are translated into explicit state passing, and
machine integers (u32, u64, wasm32 usize) become Nat with an explicit
modulus where wrapping can occur. Rust saturating_sub on unsigned
integers coincides with truncated Nat subtraction.
-/

namespace CrossChainRegistry

/-- Modelled from the spec: caller identities (candid Principal) are opaque
tokens compared only for equality; we represent them as strings. -/
abbrev Principal := String

/-- Modulus of the 32-bit unsigned integers used by the Rust code
(u32 and wasm32 usize). -/
def u32Mod : Nat := 4294967296

/-- types.rs VerificationStatus. -/
inductive VerificationStatus where
  | Pending
  | Verified
  | Failed
  | Expired
deriving DecidableEq, Repr

/-- types.rs CompanyStatus. -/
inductive CompanyStatus where
  | Pending
  | Verified
  | Trusted
  | Flagged
  | Suspended
deriving DecidableEq, Repr

/-- Modelled from the spec: the ProofStatus declaration is absent from the
types.rs snapshot; its constructor set Active/Removed/Disputed is fixed by
spec section 3 and by every match on it in monitoring.rs and
verification.rs. -/
inductive ProofStatus where
  | Active
  | Removed
  | Disputed
deriving DecidableEq, Repr

/-- types.rs VerificationType. -/
inductive VerificationType where
  | GitHub
  | Domain
  | Twitter
  | Discord
  | Telegram
deriving DecidableEq, Repr

/-- Modelled from the spec: the VerificationMethod declaration is absent from
the types.rs snapshot; the constructors used by the sources are Automated
(crosschain.rs) and ProofVisible (verification.rs), matching the spec wording
automated / human-attested. -/
inductive VerificationMethod where
  | Automated
  | ProofVisible
deriving DecidableEq, Repr

/-- Modelled from the spec: the VerificationProof declaration is absent from
the types.rs snapshot; its fields are fixed by spec section 3 and by the
record expressions building it in verification.rs and crosschain.rs. -/
structure VerificationProof where
  verification_type : VerificationType
  proof_url : String
  verified_at : Nat
  verification_method : VerificationMethod
  challenge_data : Option String
  status : ProofStatus
deriving DecidableEq, Repr

/-- types.rs CompanyBasicInfo. -/
structure CompanyBasicInfo where
  name : String
  description : String
  website : String
  founding_date : String
  team_size : Nat
  focus_areas : List String
deriving DecidableEq, Repr

/-- types.rs Web3Identity. The verification_proofs field is absent from the
types.rs snapshot but is read and written throughout verification.rs,
crosschain.rs and monitoring.rs, so it is included here. -/
structure Web3Identity where
  github_org : Option String
  twitter_handle : Option String
  discord_server : Option String
  telegram_channel : Option String
  domain_verified : Bool
  social_verification_status : VerificationStatus
  verification_proofs : List VerificationProof
deriving DecidableEq, Repr

/-- types.rs WalletInfo. -/
structure WalletInfo where
  chain : String
  address : String
  wallet_type : String
  verified : Bool
deriving DecidableEq, Repr

/-- types.rs TokenInfo. -/
structure TokenInfo where
  chain : String
  contract_address : String
  symbol : String
  name : String
  verified : Bool
deriving DecidableEq, Repr

/-- types.rs CrossChainPresence. The solana, sui and ton address lists are
absent from the types.rs snapshot but are read in verification.rs, api.rs and
crosschain.rs, so they are included here. -/
structure CrossChainPresence where
  ethereum_contracts : List String
  bitcoin_addresses : List String
  icp_canisters : List String
  polygon_contracts : List String
  solana_addresses : List String
  sui_addresses : List String
  ton_addresses : List String
  treasury_wallets : List WalletInfo
  token_contracts : List TokenInfo
deriving DecidableEq, Repr

/-- types.rs TeamMember. -/
structure TeamMember where
  name : String
  role : String
  github_profile : Option String
  linkedin_profile : Option String
  verified : Bool
deriving DecidableEq, Repr

/-- types.rs Endorsement. -/
structure Endorsement where
  endorser_company_id : String
  message : String
  timestamp : Nat
  endorser_principal : Principal
deriving DecidableEq, Repr

/-- types.rs Testimonial. -/
structure Testimonial where
  author_name : String
  role : String
  message : String
  timestamp : Nat
  verified : Bool
deriving DecidableEq, Repr

/-- types.rs Vouch. -/
structure Vouch where
  voucher_principal : Principal
  message : String
  timestamp : Nat
  weight : Nat
deriving DecidableEq, Repr

/-- types.rs CommunityValidation. reputation_score is a u32, reputation_staked
a u64. -/
structure CommunityValidation where
  peer_endorsements : List Endorsement
  employee_testimonials : List Testimonial
  community_vouches : List Vouch
  reputation_score : Nat
  reputation_staked : Nat
deriving DecidableEq, Repr

/-- types.rs Company. verification_score is a u32. -/
structure Company where
  id : String
  basic_info : CompanyBasicInfo
  web3_identity : Web3Identity
  cross_chain_presence : CrossChainPresence
  team_members : List TeamMember
  community_validation : CommunityValidation
  status : CompanyStatus
  created_at : Nat
  updated_at : Nat
  created_by : Principal
  verification_score : Nat
deriving DecidableEq, Repr

/-- storage.rs StorageManager::update_company: applies the mutator closure
and then stamps updated_at with the current time. -/
def storage_update_company (now : Nat) (f : Company → Company) (c : Company) : Company :=
  let c := f c
  { c with updated_at := now }

/-- verification.rs VerificationManager::calculate_verification_score.
All additions stay far below 2 to the 32, so u32 arithmetic is exact Nat
arithmetic here; std cmp min is Nat min. -/
def calculate_verification_score (company : Company) : Nat :=
  let score : Nat := 0
  let score := if !company.basic_info.name.isEmpty then score + 5 else score
  let score := if !company.basic_info.description.isEmpty then score + 5 else score
  let score := if !company.basic_info.website.isEmpty then score + 5 else score
  let score := if !company.basic_info.focus_areas.isEmpty then score + 5 else score
  let score := if company.web3_identity.github_org.isSome then score + 10 else score
  let score := if company.web3_identity.domain_verified then score + 10 else score
  let score :=
    if company.web3_identity.social_verification_status = VerificationStatus.Verified
    then score + 10 else score
  let score := if !company.cross_chain_presence.ethereum_contracts.isEmpty then score + 5 else score
  let score := if !company.cross_chain_presence.bitcoin_addresses.isEmpty then score + 5 else score
  let score := if !company.cross_chain_presence.icp_canisters.isEmpty then score + 5 else score
  let score := if !company.cross_chain_presence.solana_addresses.isEmpty then score + 5 else score
  let score := if !company.cross_chain_presence.sui_addresses.isEmpty then score + 5 else score
  let score := if !company.cross_chain_presence.ton_addresses.isEmpty then score + 5 else score
  let score := if !company.cross_chain_presence.treasury_wallets.isEmpty then score + 5 else score
  let score := if !company.cross_chain_presence.token_contracts.isEmpty then score + 5 else score
  let verified_team_count := (company.team_members.filter (fun m => m.verified)).length
  let score := score + min (verified_team_count * 3) 15
  let score := score + min (company.community_validation.reputation_score / 10) 10
  min score 100

/-- Mathematical ceiling of log base 10, mirroring the Rust expression
(staked as f64).log10().ceil() in community.rs; it is the least k with
10 to the k at least n (for n at least 1). -/
def ceilLog10 (n : Nat) : Nat :=
  if n ≤ 1 then 0 else Nat.log 10 (n - 1) + 1

/-- community.rs CommunityValidationManager::update_reputation_score.
The Rust accumulates the u32 score with wrapping adds and multiplies;
since wrapping is a ring homomorphism, a single final reduction modulo
2 to the 32 is equivalent. The status match arms 51..=100 and the default
arm both give Trusted. -/
def update_reputation_score (company : Company) : Company :=
  let base_score := company.verification_score / 4
  let endorsement_score := company.community_validation.peer_endorsements.length * 10
  let verified_testimonial_score :=
    (company.community_validation.employee_testimonials.filter (fun t => t.verified)).length * 5
  let unverified_testimonial_score :=
    (company.community_validation.employee_testimonials.filter (fun t => !t.verified)).length * 2
  let vouch_score :=
    (company.community_validation.community_vouches.map (fun v => v.weight * 3)).sum
  let staking_bonus :=
    if 0 < company.community_validation.reputation_staked
    then ceilLog10 company.community_validation.reputation_staked * 2
    else 0
  let score :=
    (base_score + endorsement_score + verified_testimonial_score +
      unverified_testimonial_score + vouch_score + staking_bonus) % u32Mod
  let status :=
    if score ≤ 20 then CompanyStatus.Pending
    else if score ≤ 50 then CompanyStatus.Verified
    else if score ≤ 100 then CompanyStatus.Trusted
    else CompanyStatus.Trusted
  { company with
      community_validation := { company.community_validation with reputation_score := score }
      status := status }

/-- community.rs add_endorsement: the update_company mutator pushes the new
endorsement and recomputes the reputation score; update_company then stamps
updated_at. -/
def add_endorsement_apply (now : Nat) (e : Endorsement) (c : Company) : Company :=
  storage_update_company now
    (fun company =>
      update_reputation_score
        { company with
            community_validation :=
              { company.community_validation with
                  peer_endorsements := company.community_validation.peer_endorsements ++ [e] } })
    c

/-- community.rs remove_endorsement: the update_company mutator retains the
other endorsements and recomputes the reputation score. -/
def remove_endorsement_apply (now : Nat) (endorser_company_id : String) (c : Company) :
    Company :=
  storage_update_company now
    (fun company =>
      update_reputation_score
        { company with
            community_validation :=
              { company.community_validation with
                  peer_endorsements :=
                    company.community_validation.peer_endorsements.filter
                      (fun e => e.endorser_company_id ≠ endorser_company_id) } })
    c

/-- community.rs add_testimonial: the update_company mutator pushes the
testimonial and recomputes the reputation score. -/
def add_testimonial_apply (now : Nat) (t : Testimonial) (c : Company) : Company :=
  storage_update_company now
    (fun company =>
      update_reputation_score
        { company with
            community_validation :=
              { company.community_validation with
                  employee_testimonials :=
                    company.community_validation.employee_testimonials ++ [t] } })
    c

/-- community.rs remove_testimonial: the update_company mutator retains the
other testimonials and recomputes the reputation score. -/
def remove_testimonial_apply (now : Nat) (author_name : String) (c : Company) : Company :=
  storage_update_company now
    (fun company =>
      update_reputation_score
        { company with
            community_validation :=
              { company.community_validation with
                  employee_testimonials :=
                    company.community_validation.employee_testimonials.filter
                      (fun t => t.author_name ≠ author_name) } })
    c

/-- community.rs verify_testimonial: marks the first testimonial by the given
author verified. -/
def set_first_testimonial_verified (author_name : String) :
    List Testimonial → List Testimonial
  | [] => []
  | t :: ts =>
    if t.author_name = author_name then { t with verified := true } :: ts
    else t :: set_first_testimonial_verified author_name ts

/-- community.rs verify_testimonial: the update_company mutator verifies the
matching testimonial and recomputes the reputation score. -/
def verify_testimonial_apply (now : Nat) (author_name : String) (c : Company) : Company :=
  storage_update_company now
    (fun company =>
      update_reputation_score
        { company with
            community_validation :=
              { company.community_validation with
                  employee_testimonials :=
                    set_first_testimonial_verified author_name
                      company.community_validation.employee_testimonials } })
    c

/-- community.rs add_vouch: the update_company mutator pushes the vouch and
recomputes the reputation score. -/
def add_vouch_apply (now : Nat) (v : Vouch) (c : Company) : Company :=
  storage_update_company now
    (fun company =>
      update_reputation_score
        { company with
            community_validation :=
              { company.community_validation with
                  community_vouches :=
                    company.community_validation.community_vouches ++ [v] } })
    c

/-- community.rs remove_vouch: the update_company mutator retains the other
vouches and recomputes the reputation score. -/
def remove_vouch_apply (now : Nat) (voucher : Principal) (c : Company) : Company :=
  storage_update_company now
    (fun company =>
      update_reputation_score
        { company with
            community_validation :=
              { company.community_validation with
                  community_vouches :=
                    company.community_validation.community_vouches.filter
                      (fun v => v.voucher_principal ≠ voucher) } })
    c

/-- community.rs stake_reputation: the update_company mutator adds the staked
amount and recomputes the reputation score. -/
def stake_reputation_apply (now : Nat) (amount : Nat) (c : Company) : Company :=
  storage_update_company now
    (fun company =>
      update_reputation_score
        { company with
            community_validation :=
              { company.community_validation with
                  reputation_staked :=
                    company.community_validation.reputation_staked + amount } })
    c

/-- monitoring.rs update_reputation_scores: count of proofs whose status is
Removed. -/
def removed_proof_count (company : Company) : Nat :=
  (company.web3_identity.verification_proofs.filter
    (fun p => p.status = ProofStatus.Removed)).length

/-- monitoring.rs update_reputation_scores: count of proofs whose status is
Disputed. -/
def disputed_proof_count (company : Company) : Nat :=
  (company.web3_identity.verification_proofs.filter
    (fun p => p.status = ProofStatus.Disputed)).length

/-- monitoring.rs MonitoringSystem::update_reputation_scores, as the Company
transformation it performs through update_company. The penalty is computed in
wasm32 usize (32 bits, wrapping in release builds) and cast to u32, hence the
modulus; saturating_sub is truncated Nat subtraction. update_company stamps
updated_at. -/
def update_reputation_scores (now : Nat) (company : Company) : Company :=
  let penalty := (removed_proof_count company * 20 + disputed_proof_count company * 10) % u32Mod
  let new_score := company.verification_score - penalty
  let new_status := if new_score < 30 then CompanyStatus.Flagged else company.status
  { company with
      verification_score := new_score
      status := new_status
      updated_at := now }

/-- storage.rs check_rate_limit_with_config: requests.retain keeps only the
timestamps strictly inside the sliding window; now.saturating_sub(window) is
truncated Nat subtraction. -/
def prune_window (window_size_ns now : Nat) (requests : List Nat) : List Nat :=
  requests.filter (fun ts => now - window_size_ns < ts)

/-- storage.rs check_rate_limit_with_config: the memory-exhaustion guard
drains all but the most recent 100 entries whenever the history exceeds 1000
entries. -/
def cap_history (requests : List Nat) : List Nat :=
  if 1000 < requests.length then requests.drop (requests.length - 100) else requests

/-- storage.rs StorageManager::check_rate_limit_with_config for one caller
identity: prune the timestamp history to the window, apply the size cap, then
admit (and record the current time) iff the count is below the limit. Returns
the decision and the new history stored back for that identity. -/
def check_rate_limit_with_config (max_requests window_size_ns now : Nat)
    (requests : List Nat) : Bool × List Nat :=
  let requests := cap_history (prune_window window_size_ns now requests)
  if requests.length < max_requests then (true, requests ++ [now])
  else (false, requests)

/-- storage.rs check_http_rate_limit: 10 requests per 60 seconds (in
nanoseconds), over the shared HTTP_RATE_LIMITS history of the caller. -/
def check_http_rate_limit (now : Nat) (requests : List Nat) : Bool × List Nat :=
  check_rate_limit_with_config 10 60000000000 now requests

/-- storage.rs check_verification_rate_limit: 5 requests per 300 seconds,
over the same shared HTTP_RATE_LIMITS history of the caller. -/
def check_verification_rate_limit (now : Nat) (requests : List Nat) : Bool × List Nat :=
  check_rate_limit_with_config 5 300000000000 now requests

/-- storage.rs check_report_rate_limit: 3 requests per 600 seconds, again over
the same shared HTTP_RATE_LIMITS history of the caller (the dedicated
REPORT_RATE_LIMITS map declared in storage.rs is never consulted). -/
def check_report_rate_limit (now : Nat) (requests : List Nat) : Bool × List Nat :=
  check_rate_limit_with_config 3 600000000000 now requests

/-- A sequence of rate-limited calls by one identity at the given times,
threading the stored history; returns the admission decisions and the final
history. -/
def run_rate_calls (max_requests window_size_ns : Nat) :
    List Nat → List Nat → List Bool × List Nat
  | [], requests => ([], requests)
  | t :: rest, requests =>
    let r := check_rate_limit_with_config max_requests window_size_ns t requests
    let next := run_rate_calls max_requests window_size_ns rest r.2
    (r.1 :: next.1, next.2)

/-- Modelled from the spec: the TaskType declaration is absent from the
types.rs snapshot; its five constructors are fixed by spec section 3 and by
the dispatch match in monitoring.rs execute_monitoring_task. -/
inductive TaskType where
  | ProofCheck
  | ContentValidation
  | ReputationUpdate
  | SecurityScan
  | CommunityAlert
deriving DecidableEq, Repr

/-- Modelled from the spec: the TaskPriority declaration is absent from the
types.rs snapshot; Medium, High and Critical appear in the sources and Low
completes the conventional set. -/
inductive TaskPriority where
  | Low
  | Medium
  | High
  | Critical
deriving DecidableEq, Repr

/-- Modelled from the spec: the MonitoringTask declaration is absent from the
types.rs snapshot; its fields are fixed by spec section 3 and by the record
expressions building tasks in monitoring.rs. -/
structure MonitoringTask where
  task_id : String
  task_type : TaskType
  target_company_id : String
  target_proof_id : Option String
  scheduled_at : Nat
  priority : TaskPriority
  retry_count : Nat
  max_retries : Nat
  last_error : Option String
deriving DecidableEq, Repr

/-- Outcome of one iteration of the process_monitoring_tasks loop for a due
task: on success the task is removed and its id reported as processed; on
failure it is either removed permanently (with a high-severity security
event) or rescheduled. -/
inductive TaskStepResult where
  | completed (task_id : String)
  | failedPermanently (task : MonitoringTask)
  | failedRescheduled (task : MonitoringTask)
deriving DecidableEq, Repr

/-- monitoring.rs process_monitoring_tasks, loop body for a single due task,
parameterized by the result of execute_monitoring_task. On failure the retry
count is incremented and the error recorded; the task is removed permanently
once retry_count reaches max_retries and rescheduled at
current_time + retry_count * 1 hour (in nanoseconds) otherwise. -/
def process_monitoring_task_step (current_time : Nat) (result : Except String Unit)
    (task : MonitoringTask) : TaskStepResult :=
  match result with
  | Except.ok _ => TaskStepResult.completed task.task_id
  | Except.error e =>
    let task := { task with retry_count := task.retry_count + 1, last_error := some e }
    if task.max_retries ≤ task.retry_count then TaskStepResult.failedPermanently task
    else
      TaskStepResult.failedRescheduled
        { task with scheduled_at := current_time + task.retry_count * 3600000000000 }

/-- monitoring.rs process_monitoring_tasks: the loop over all due tasks,
collecting the ids of successfully processed tasks. -/
def process_monitoring_tasks (current_time : Nat)
    (execute : MonitoringTask → Except String Unit)
    (pending_tasks : List MonitoringTask) : List String :=
  (pending_tasks.filterMap (fun task =>
    match process_monitoring_task_step current_time (execute task) task with
    | TaskStepResult.completed task_id => some task_id
    | _ => none))

/-- types.rs DomainVerificationChallenge. -/
structure DomainVerificationChallenge where
  company_id : String
  domain : String
  challenge_token : String
  created_at : Nat
  expires_at : Nat
deriving DecidableEq, Repr

/-- Result of a canister HTTPS outcall: a transport failure or a response
with an HTTP status and a body. -/
inductive HttpResult where
  | failed (err : String)
  | response (status : Nat) (body : String)
deriving DecidableEq, Repr

/-- RegistryResult of VerificationResult: either an Err with a message or an
Ok carrying the VerificationResult fields success, message, verified_at. -/
inductive RegistryOutcome where
  | err (msg : String)
  | ok (success : Bool) (message : String) (verified_at : Option Nat)
deriving DecidableEq, Repr

/-- Helper for substring search: the needle is an initial segment of the
haystack. -/
def token_starts : List Char → List Char → Bool
  | [], _ => true
  | _ :: _, [] => false
  | a :: as, b :: bs => a == b && token_starts as bs

/-- Helper for substring search: the needle occurs somewhere in the
haystack. -/
def token_occurs (needle : List Char) : List Char → Bool
  | [] => token_starts needle []
  | c :: cs => token_starts needle (c :: cs) || token_occurs needle cs

/-- Rust str::contains with a plain string pattern: substring occurrence. -/
def str_contains (haystack needle : String) : Bool :=
  token_occurs needle.data haystack.data

/-- The canister state touched by verify_domain_ownership for one company and
one caller: the DOMAIN_CHALLENGES entry for the company, the COMPANIES entry,
and the caller entry of the shared HTTP_RATE_LIMITS map. -/
structure DomainVerifyState where
  domain_challenge : Option DomainVerificationChallenge
  company : Option Company
  rate_history : List Nat
deriving DecidableEq, Repr

/-- verification.rs VerificationManager::verify_domain_ownership as a state
transformer. Order of operations as in the source: verification rate limit,
challenge lookup, lazy expiry check (delete challenge and error), DNS outcall,
token search in the body, company mutation, challenge deletion on success. -/
def verify_domain_ownership (now : Nat) (dns : HttpResult) (st : DomainVerifyState) :
    RegistryOutcome × DomainVerifyState :=
  let rl := check_verification_rate_limit now st.rate_history
  if rl.1 then
    let st := { st with rate_history := rl.2 }
    match st.domain_challenge with
    | none =>
      (RegistryOutcome.err "No domain verification challenge found. Create one first.", st)
    | some challenge =>
      if challenge.expires_at < now then
        (RegistryOutcome.err "Domain verification challenge expired",
          { st with domain_challenge := none })
      else
        match dns with
        | HttpResult.failed _ => (RegistryOutcome.err "DNS query request failed", st)
        | HttpResult.response status body =>
          if status = 200 then
            if str_contains body challenge.challenge_token then
              match st.company with
              | some c =>
                let c :=
                  storage_update_company now
                    (fun company =>
                      let company :=
                        { company with
                            web3_identity :=
                              { company.web3_identity with domain_verified := true } }
                      { company with
                          verification_score := calculate_verification_score company })
                    c
                (RegistryOutcome.ok true "Domain verified successfully" (some now),
                  { st with company := some c, domain_challenge := none })
              | none => (RegistryOutcome.err "Failed to update company", st)
            else
              (RegistryOutcome.ok false "TXT record with token not found in domain" none, st)
          else (RegistryOutcome.err "DNS query failed with status", st)
  else
    (RegistryOutcome.err "Verification rate limit exceeded",
      { st with rate_history := rl.2 })

/-- types.rs ChainType as used by crosschain.rs and storage.rs, which also
match on Solana, Sui and TON (absent from the stale types.rs enum). -/
inductive ChainType where
  | Ethereum
  | Bitcoin
  | ICP
  | Polygon
  | Solana
  | Sui
  | TON
deriving DecidableEq, Repr

/-- types.rs CrossChainVerificationMethod. -/
inductive CrossChainVerificationMethod where
  | SignMessage (message : String)
  | DeploySpecialContract (verification_code : String)
  | SetPublicVariable (variable_name : String) (value : String)
  | SpecialTransaction (transaction_data : String)
deriving DecidableEq, Repr

/-- types.rs CrossChainChallenge. -/
structure CrossChainChallenge where
  company_id : String
  chain_type : ChainType
  address_or_contract : String
  challenge_message : String
  verification_method : CrossChainVerificationMethod
  created_at : Nat
  expires_at : Nat
deriving DecidableEq, Repr

/-- types.rs EtherscanTransaction; the Rust fields from and to are renamed
fromAddr and toAddr because from is a Lean keyword. -/
structure EtherscanTransaction where
  hash : String
  fromAddr : String
  toAddr : String
  value : String
  input : String
  timestamp : String
deriving DecidableEq, Repr

/-- types.rs EtherscanContractResponse. -/
structure EtherscanContractResponse where
  status : String
  message : String
  result : List EtherscanTransaction
deriving DecidableEq, Repr

/-- Result of the Etherscan outcall: transport failure, or an HTTP response
whose body either parses to an EtherscanContractResponse or fails to parse
(none). -/
inductive EtherscanHttp where
  | failed (err : String)
  | response (status : Nat) (parsed : Option EtherscanContractResponse)
deriving DecidableEq, Repr

/-- crosschain.rs CrossChainVerifier::verify_ethereum_challenge: the challenge
message must occur in the input data of some returned transaction. -/
def verify_ethereum_challenge (data : EtherscanContractResponse)
    (challenge_message : String) : Bool :=
  data.result.any (fun tx => str_contains tx.input challenge_message)

/-- The canister state touched by verify_ethereum_contract for one company
and one (chain, address) pair: the matching CROSSCHAIN_CHALLENGES entry (none
when find_challenge_key fails) and the COMPANIES entry. -/
structure CrossChainVerifyState where
  challenge : Option CrossChainChallenge
  company : Option Company
deriving DecidableEq, Repr

/-- crosschain.rs CrossChainVerifier::verify_ethereum_contract as a state
transformer. Order as in the source: challenge-key lookup, lazy expiry check
(delete challenge and error), Etherscan outcall, challenge-message search over
transaction inputs, company mutation (record contract, flag matching wallets
and tokens verified, append proof), challenge deletion on success. -/
def verify_ethereum_contract (now : Nat) (resp : EtherscanHttp)
    (contract_address : String) (st : CrossChainVerifyState) :
    RegistryOutcome × CrossChainVerifyState :=
  match st.challenge with
  | none => (RegistryOutcome.err "Challenge not found", st)
  | some challenge =>
    if challenge.expires_at < now then
      (RegistryOutcome.err "Cross-chain verification challenge expired",
        { st with challenge := none })
    else
      match resp with
      | EtherscanHttp.failed _ => (RegistryOutcome.err "HTTP request failed", st)
      | EtherscanHttp.response status parsed =>
        if status = 200 then
          match parsed with
          | none => (RegistryOutcome.err "Failed to parse Etherscan API response", st)
          | some data =>
            if verify_ethereum_challenge data challenge.challenge_message then
              match st.company with
              | some c =>
                let proof : VerificationProof :=
                  { verification_type := VerificationType.GitHub
                    proof_url := "https://etherscan.io/address/" ++ contract_address
                    verified_at := now
                    verification_method := VerificationMethod.Automated
                    challenge_data := some challenge.challenge_message
                    status := ProofStatus.Active }
                let c :=
                  storage_update_company now
                    (fun company =>
                      let company :=
                        if contract_address ∈ company.cross_chain_presence.ethereum_contracts
                        then company
                        else
                          { company with
                              cross_chain_presence :=
                                { company.cross_chain_presence with
                                    ethereum_contracts :=
                                      company.cross_chain_presence.ethereum_contracts ++
                                        [contract_address] } }
                      let company :=
                        { company with
                            cross_chain_presence :=
                              { company.cross_chain_presence with
                                  treasury_wallets :=
                                    company.cross_chain_presence.treasury_wallets.map
                                      (fun (w : WalletInfo) =>
                                        if w.address = contract_address ∧ w.chain = "ethereum"
                                        then { w with verified := true } else w)
                                  token_contracts :=
                                    company.cross_chain_presence.token_contracts.map
                                      (fun (t : TokenInfo) =>
                                        if t.contract_address = contract_address ∧
                                            t.chain = "ethereum"
                                        then { t with verified := true } else t) } }
                      { company with
                          web3_identity :=
                            { company.web3_identity with
                                verification_proofs :=
                                  company.web3_identity.verification_proofs ++ [proof] } })
                    c
                (RegistryOutcome.ok true "Ethereum contract verified successfully" (some now),
                  { st with company := some c, challenge := none })
              | none => (RegistryOutcome.err "Failed to update company", st)
            else
              (RegistryOutcome.ok false
                "Challenge message not found in recent transactions" none, st)
        else (RegistryOutcome.err "Etherscan API error", st)

/-- A company with empty profile, identities, presence and community data,
used as the base for concrete test companies. -/
def blank_company : Company :=
  { id := "company_0"
    basic_info :=
      { name := ""
        description := ""
        website := ""
        founding_date := ""
        team_size := 0
        focus_areas := [] }
    web3_identity :=
      { github_org := none
        twitter_handle := none
        discord_server := none
        telegram_channel := none
        domain_verified := false
        social_verification_status := VerificationStatus.Pending
        verification_proofs := [] }
    cross_chain_presence :=
      { ethereum_contracts := []
        bitcoin_addresses := []
        icp_canisters := []
        polygon_contracts := []
        solana_addresses := []
        sui_addresses := []
        ton_addresses := []
        treasury_wallets := []
        token_contracts := [] }
    team_members := []
    community_validation :=
      { peer_endorsements := []
        employee_testimonials := []
        community_vouches := []
        reputation_score := 0
        reputation_staked := 0 }
    status := CompanyStatus.Pending
    created_at := 0
    updated_at := 0
    created_by := "owner"
    verification_score := 0 }

/-- A verification proof whose backing post has been removed. -/
def proof_removed : VerificationProof :=
  { verification_type := VerificationType.Twitter
    proof_url := "https://x.com/acme/status/1"
    verified_at := 1
    verification_method := VerificationMethod.ProofVisible
    challenge_data := none
    status := ProofStatus.Removed }

/-- A company with verification score 100 and exactly one Removed proof. -/
def company_one_removed_proof : Company :=
  { blank_company with
      verification_score := 100
      web3_identity := { blank_company.web3_identity with verification_proofs := [proof_removed] } }

/-- C1: calculate_verification_score is clamped at 100; the ReputationUpdate
penalty subtraction never raises the verification score (it is a truncated,
hence 0-saturated, subtraction); and the community reputation recompute does
not touch the verification score. Together with api.rs initializing
verification_score from calculate_verification_score, every mutation path
keeps the stored verification_score in the interval from 0 to 100. -/
theorem c1_verification_score_bounded :
    (∀ c : Company, calculate_verification_score c ≤ 100) ∧
    (∀ (now : Nat) (c : Company),
      (update_reputation_scores now c).verification_score ≤ c.verification_score) ∧
    (∀ c : Company,
      (update_reputation_score c).verification_score = c.verification_score) := by
  refine ⟨fun c => ?_, fun now c => ?_, fun c => rfl⟩
  · exact min_le_right _ _
  · exact Nat.sub_le _ _

/-- The C3 scenario company: verification score 40 and no endorsements,
testimonials, vouches or stake. -/
def company_c3 : Company := { blank_company with verification_score := 40 }

/-- C3: for the scenario company the recompute yields reputation score 10 and
status Pending; in general the recomputed status is exactly the band of the
recomputed score (0 to 20 Pending, 21 to 50 Verified, 51 and above Trusted)
and is never Flagged or Suspended. -/
theorem c3_reputation_scenario_and_bands :
    ((update_reputation_score company_c3).community_validation.reputation_score = 10 ∧
      (update_reputation_score company_c3).status = CompanyStatus.Pending) ∧
    (∀ c : Company,
      (update_reputation_score c).status =
        (if (update_reputation_score c).community_validation.reputation_score ≤ 20
          then CompanyStatus.Pending
          else if (update_reputation_score c).community_validation.reputation_score ≤ 50
          then CompanyStatus.Verified
          else CompanyStatus.Trusted)) ∧
    (∀ c : Company,
      (update_reputation_score c).status ≠ CompanyStatus.Flagged ∧
      (update_reputation_score c).status ≠ CompanyStatus.Suspended) := by
  refine ⟨⟨by decide, by decide⟩, fun c => ?_, fun c => ?_⟩
  · unfold update_reputation_score
    dsimp only
    split_ifs <;> rfl
  · unfold update_reputation_score
    dsimp only
    split_ifs <;> exact ⟨by decide, by decide⟩

/-- C4: executing a ReputationUpdate task subtracts 20 per Removed proof and
10 per Disputed proof from the verification score (saturating at 0, here as
truncated Nat subtraction), provided the penalty does not overflow the 32-bit
cast; the status becomes Flagged exactly when the resulting score is below 30
and is left unchanged otherwise. -/
theorem c4_reputation_update_formula (now : Nat) (c : Company)
    (h : removed_proof_count c * 20 + disputed_proof_count c * 10 < u32Mod) :
    (update_reputation_scores now c).verification_score =
        c.verification_score -
          (removed_proof_count c * 20 + disputed_proof_count c * 10) ∧
    ((update_reputation_scores now c).verification_score < 30 →
        (update_reputation_scores now c).status = CompanyStatus.Flagged) ∧
    (¬ (update_reputation_scores now c).verification_score < 30 →
        (update_reputation_scores now c).status = c.status) := by
  unfold update_reputation_scores
  dsimp only
  rw [Nat.mod_eq_of_lt h]
  refine ⟨rfl, fun h2 => ?_, fun h2 => ?_⟩
  · rw [if_pos h2]
  · rw [if_neg h2]

/-- Witness for C4 at a concrete company with one Removed proof. -/
theorem c4_reputation_update_formula_witness :
    (removed_proof_count company_one_removed_proof * 20 +
        disputed_proof_count company_one_removed_proof * 10 < u32Mod) ∧
    ((update_reputation_scores 7 company_one_removed_proof).verification_score =
        company_one_removed_proof.verification_score -
          (removed_proof_count company_one_removed_proof * 20 +
            disputed_proof_count company_one_removed_proof * 10) ∧
      ((update_reputation_scores 7 company_one_removed_proof).verification_score < 30 →
          (update_reputation_scores 7 company_one_removed_proof).status =
            CompanyStatus.Flagged) ∧
      (¬ (update_reputation_scores 7 company_one_removed_proof).verification_score < 30 →
          (update_reputation_scores 7 company_one_removed_proof).status =
            company_one_removed_proof.status)) :=
  ⟨by decide, c4_reputation_update_formula 7 company_one_removed_proof (by decide)⟩

/-- C9: the ReputationUpdate execution is not idempotent: on a company with
verification score 100 and one Removed proof it yields 80, and running it a
second time with unchanged proof statuses subtracts the same penalty again,
yielding 60. -/
theorem c9_reputation_update_not_idempotent :
    company_one_removed_proof.verification_score = 100 ∧
    (update_reputation_scores 1 company_one_removed_proof).verification_score = 80 ∧
    (update_reputation_scores 2
        (update_reputation_scores 1 company_one_removed_proof)).verification_score = 60 ∧
    (update_reputation_scores 2
        (update_reputation_scores 1 company_one_removed_proof)).verification_score <
      (update_reputation_scores 1 company_one_removed_proof).verification_score := by
  decide

/-- A peer endorsement used in the C10 scenario. -/
def endorsement_sample : Endorsement :=
  { endorser_company_id := "company_e"
    message := "solid team"
    timestamp := 5
    endorser_principal := "peer" }

/-- A company whose status was previously forced to Flagged by the monitoring
path. -/
def company_flagged : Company :=
  { blank_company with status := CompanyStatus.Flagged, verification_score := 20 }

/-- The community reputation recompute always leaves one of the three
band-derived statuses. -/
lemma update_reputation_score_status_cases (c : Company) :
    (update_reputation_score c).status = CompanyStatus.Pending ∨
    (update_reputation_score c).status = CompanyStatus.Verified ∨
    (update_reputation_score c).status = CompanyStatus.Trusted := by
  unfold update_reputation_score
  dsimp only
  split_ifs <;> simp

/-- C10: a Flagged status is not sticky: every community mutation (adding or
removing an endorsement, testimonial or vouch, verifying a testimonial,
staking reputation) ends in the reputation recompute, whose status is always
the band-derived Pending, Verified or Trusted; on a concrete Flagged company
an endorsement overwrites Flagged with Pending. -/
theorem c10_flagged_not_sticky :
    (∀ (now : Nat) (e : Endorsement) (c : Company),
        (add_endorsement_apply now e c).status = CompanyStatus.Pending ∨
        (add_endorsement_apply now e c).status = CompanyStatus.Verified ∨
        (add_endorsement_apply now e c).status = CompanyStatus.Trusted) ∧
    (∀ (now : Nat) (endorser : String) (c : Company),
        (remove_endorsement_apply now endorser c).status = CompanyStatus.Pending ∨
        (remove_endorsement_apply now endorser c).status = CompanyStatus.Verified ∨
        (remove_endorsement_apply now endorser c).status = CompanyStatus.Trusted) ∧
    (∀ (now : Nat) (t : Testimonial) (c : Company),
        (add_testimonial_apply now t c).status = CompanyStatus.Pending ∨
        (add_testimonial_apply now t c).status = CompanyStatus.Verified ∨
        (add_testimonial_apply now t c).status = CompanyStatus.Trusted) ∧
    (∀ (now : Nat) (author : String) (c : Company),
        (remove_testimonial_apply now author c).status = CompanyStatus.Pending ∨
        (remove_testimonial_apply now author c).status = CompanyStatus.Verified ∨
        (remove_testimonial_apply now author c).status = CompanyStatus.Trusted) ∧
    (∀ (now : Nat) (author : String) (c : Company),
        (verify_testimonial_apply now author c).status = CompanyStatus.Pending ∨
        (verify_testimonial_apply now author c).status = CompanyStatus.Verified ∨
        (verify_testimonial_apply now author c).status = CompanyStatus.Trusted) ∧
    (∀ (now : Nat) (v : Vouch) (c : Company),
        (add_vouch_apply now v c).status = CompanyStatus.Pending ∨
        (add_vouch_apply now v c).status = CompanyStatus.Verified ∨
        (add_vouch_apply now v c).status = CompanyStatus.Trusted) ∧
    (∀ (now : Nat) (voucher : Principal) (c : Company),
        (remove_vouch_apply now voucher c).status = CompanyStatus.Pending ∨
        (remove_vouch_apply now voucher c).status = CompanyStatus.Verified ∨
        (remove_vouch_apply now voucher c).status = CompanyStatus.Trusted) ∧
    (∀ (now amount : Nat) (c : Company),
        (stake_reputation_apply now amount c).status = CompanyStatus.Pending ∨
        (stake_reputation_apply now amount c).status = CompanyStatus.Verified ∨
        (stake_reputation_apply now amount c).status = CompanyStatus.Trusted) ∧
    company_flagged.status = CompanyStatus.Flagged ∧
    (add_endorsement_apply 9 endorsement_sample company_flagged).status =
      CompanyStatus.Pending := by
  refine ⟨fun now e c => ?_, fun now endorser c => ?_, fun now t c => ?_,
    fun now author c => ?_, fun now author c => ?_, fun now v c => ?_,
    fun now voucher c => ?_, fun now amount c => ?_, by decide, by decide⟩ <;>
    exact update_reputation_score_status_cases _

/-- A routine ProofCheck monitoring task that has not failed yet. -/
def task_sample : MonitoringTask :=
  { task_id := "task_1"
    task_type := TaskType.ProofCheck
    target_company_id := "company_1"
    target_proof_id := some "proof_1"
    scheduled_at := 0
    priority := TaskPriority.Medium
    retry_count := 0
    max_retries := 3
    last_error := none }

/-- C7: a due task whose execution fails has its retry count incremented by
exactly one and the error recorded; it is removed permanently exactly when the
incremented count reaches max_retries, and otherwise rescheduled at the
current time plus the incremented count times the 1-hour base delay. -/
theorem c7_retry_step (now : Nat) (e : String) (task : MonitoringTask)
    (h : task.retry_count < task.max_retries) :
    process_monitoring_task_step now (Except.error e) task =
      (if task.retry_count + 1 = task.max_retries
        then TaskStepResult.failedPermanently
          { task with retry_count := task.retry_count + 1, last_error := some e }
        else TaskStepResult.failedRescheduled
          { task with
              retry_count := task.retry_count + 1
              last_error := some e
              scheduled_at := now + (task.retry_count + 1) * 3600000000000 }) := by
  unfold process_monitoring_task_step
  dsimp only
  rcases eq_or_lt_of_le (Nat.succ_le_of_lt h) with heq | hlt
  · rw [if_pos (le_of_eq heq.symm), if_pos heq]
  · rw [if_neg (Nat.not_le.mpr hlt), if_neg (Nat.ne_of_lt hlt)]

/-- Witness for C7 at a concrete fresh task with three allowed retries. -/
theorem c7_retry_step_witness :
    task_sample.retry_count < task_sample.max_retries ∧
    process_monitoring_task_step 50 (Except.error "url unreachable") task_sample =
      (if task_sample.retry_count + 1 = task_sample.max_retries
        then TaskStepResult.failedPermanently
          { task_sample with
              retry_count := task_sample.retry_count + 1
              last_error := some "url unreachable" }
        else TaskStepResult.failedRescheduled
          { task_sample with
              retry_count := task_sample.retry_count + 1
              last_error := some "url unreachable"
              scheduled_at := 50 + (task_sample.retry_count + 1) * 3600000000000 }) :=
  ⟨by decide, c7_retry_step 50 "url unreachable" task_sample (by decide)⟩

/-- C2 (failing behavior of the code): the three rate-limit action classes
share the single per-identity HTTP_RATE_LIMITS history. After three admitted
general write actions at time 1000 by one identity, a community report check
for the same identity at the same time is refused (3 timestamps fill the
report limit of 3 per 600 seconds), although it would be admitted on an
independent (empty) report history. -/
theorem c2_rate_limit_classes_share_history :
    (check_http_rate_limit 1000 []).1 = true ∧
    (check_http_rate_limit 1000 (check_http_rate_limit 1000 []).2).1 = true ∧
    (check_http_rate_limit 1000
        (check_http_rate_limit 1000 (check_http_rate_limit 1000 []).2).2).1 = true ∧
    (check_report_rate_limit 1000
        (check_http_rate_limit 1000
          (check_http_rate_limit 1000 (check_http_rate_limit 1000 []).2).2).2).1 = false ∧
    (check_report_rate_limit 1000 []).1 = true := by
  decide

/-- C5: for any stored challenge checked after its expiry (domain or
cross-chain), the verify call deletes the challenge and returns the expiry
error, for every possible external evidence, and leaves the company record
untouched. The rate-limit admission hypothesis reflects that the domain path
checks the verification rate limit before reading the challenge. -/
theorem c5_expired_challenge_consumed (now : Nat) (dns : HttpResult)
    (st : DomainVerifyState) (ch : DomainVerificationChallenge)
    (resp : EtherscanHttp) (addr : String) (cst : CrossChainVerifyState)
    (cch : CrossChainChallenge)
    (hrl : (check_verification_rate_limit now st.rate_history).1 = true)
    (hch : st.domain_challenge = some ch)
    (hexp : ch.expires_at < now)
    (hcch : cst.challenge = some cch)
    (hcexp : cch.expires_at < now) :
    ((verify_domain_ownership now dns st).1 =
        RegistryOutcome.err "Domain verification challenge expired" ∧
      (verify_domain_ownership now dns st).2.domain_challenge = none ∧
      (verify_domain_ownership now dns st).2.company = st.company) ∧
    ((verify_ethereum_contract now resp addr cst).1 =
        RegistryOutcome.err "Cross-chain verification challenge expired" ∧
      (verify_ethereum_contract now resp addr cst).2.challenge = none ∧
      (verify_ethereum_contract now resp addr cst).2.company = cst.company) := by
  have hd : verify_domain_ownership now dns st =
      (RegistryOutcome.err "Domain verification challenge expired",
        { domain_challenge := none
          company := st.company
          rate_history := (check_verification_rate_limit now st.rate_history).2 }) := by
    unfold verify_domain_ownership
    dsimp only
    rw [hrl, if_pos rfl, hch]
    dsimp only
    rw [if_pos hexp]
  have he : verify_ethereum_contract now resp addr cst =
      (RegistryOutcome.err "Cross-chain verification challenge expired",
        { challenge := none, company := cst.company }) := by
    unfold verify_ethereum_contract
    dsimp only
    rw [hcch]
    dsimp only
    rw [if_pos hcexp]
  rw [hd, he]
  exact ⟨⟨rfl, rfl, rfl⟩, ⟨rfl, rfl, rfl⟩⟩

/-- C6: after a successful domain verification the challenge record is gone,
so a second verify call for the same company (whatever evidence it sees)
returns the no-challenge-found error instead of succeeding again. -/
theorem c6_challenge_single_use (now now2 : Nat) (body : String) (dns2 : HttpResult)
    (st : DomainVerifyState) (ch : DomainVerificationChallenge) (c : Company)
    (hrl : (check_verification_rate_limit now st.rate_history).1 = true)
    (hch : st.domain_challenge = some ch)
    (hexp : ¬ ch.expires_at < now)
    (htok : str_contains body ch.challenge_token = true)
    (hc : st.company = some c)
    (hrl2 : (check_verification_rate_limit now2
        (verify_domain_ownership now (HttpResult.response 200 body) st).2.rate_history).1 =
      true) :
    (verify_domain_ownership now (HttpResult.response 200 body) st).1 =
        RegistryOutcome.ok true "Domain verified successfully" (some now) ∧
    (verify_domain_ownership now (HttpResult.response 200 body) st).2.domain_challenge =
        none ∧
    (verify_domain_ownership now2 dns2
        (verify_domain_ownership now (HttpResult.response 200 body) st).2).1 =
      RegistryOutcome.err "No domain verification challenge found. Create one first." := by
  have hkey : verify_domain_ownership now (HttpResult.response 200 body) st =
      (RegistryOutcome.ok true "Domain verified successfully" (some now),
        { domain_challenge := none
          company := some (storage_update_company now
            (fun company =>
              let company :=
                { company with
                    web3_identity := { company.web3_identity with domain_verified := true } }
              { company with verification_score := calculate_verification_score company }) c)
          rate_history := (check_verification_rate_limit now st.rate_history).2 }) := by
    unfold verify_domain_ownership
    dsimp only
    rw [hrl, if_pos rfl, hch]
    dsimp only
    rw [if_neg hexp]
    rw [if_pos rfl, htok, if_pos rfl, hc]
  rw [hkey] at hrl2 ⊢
  refine ⟨rfl, rfl, ?_⟩
  unfold verify_domain_ownership
  dsimp only
  rw [hrl2, if_pos rfl]

/-- The pruning step keeps a history untouched when every entry is inside the
window of the incoming call. -/
lemma prune_window_eq_self (window_size_ns now : Nat) (requests : List Nat)
    (h : ∀ a ∈ requests, now - window_size_ns < a) :
    prune_window window_size_ns now requests = requests :=
  List.filter_eq_self.mpr (fun a ha => decide_eq_true (h a ha))

/-- Unfolding equation for a run of rate-limited calls. -/
lemma run_rate_calls_cons (N W t : Nat) (rest hist : List Nat) :
    run_rate_calls N W (t :: rest) hist =
      ((check_rate_limit_with_config N W t hist).1 ::
          (run_rate_calls N W rest (check_rate_limit_with_config N W t hist).2).1,
        (run_rate_calls N W rest (check_rate_limit_with_config N W t hist).2).2) := rfl

/-- Behavior of a run of rate-limited calls that all fall inside one sliding
window, starting from a history that is itself entirely inside the window of
every call: the first N minus (history length) calls are admitted and the next
is refused, and the final stored history is the old one plus the admitted
timestamps. -/
lemma run_rate_calls_no_prune (N W : Nat) (hcap : N ≤ 1000) :
    ∀ ts hist : List Nat, hist.length + ts.length = N + 1 →
      (∀ b ∈ ts, ∀ a ∈ hist, b - W < a) →
      List.Pairwise (fun a b => b - W < a) ts →
      ts ≠ [] →
      (run_rate_calls N W ts hist).1 =
          List.replicate (N - hist.length) true ++ [false] ∧
        (run_rate_calls N W ts hist).2 = hist ++ ts.dropLast := by
  intro ts
  induction ts with
  | nil => intro hist _ _ _ hne; exact absurd rfl hne
  | cons t rest ih =>
    intro hist hlen hwin hpair _
    have hlen2 : hist.length + (rest.length + 1) = N + 1 := by simpa using hlen
    have hprune : prune_window W t hist = hist :=
      prune_window_eq_self W t hist (fun a ha => hwin t (by simp) a ha)
    have hcap2 : cap_history hist = hist := by
      unfold cap_history
      rw [if_neg (by omega)]
    have hstep : check_rate_limit_with_config N W t hist =
        if hist.length < N then (true, hist ++ [t]) else (false, hist) := by
      unfold check_rate_limit_with_config
      rw [hprune, hcap2]
    cases rest with
    | nil =>
      simp only [List.length_cons, List.length_nil] at hlen2
      have hfull : hist.length = N := by omega
      rw [run_rate_calls_cons, hstep, if_neg (by omega)]
      refine ⟨?_, ?_⟩ <;> simp [run_rate_calls, hfull]
    | cons r rest2 =>
      simp only [List.length_cons] at hlen2
      have hlt : hist.length < N := by omega
      obtain ⟨ih1, ih2⟩ := ih (hist ++ [t])
        (by simp only [List.length_append, List.length_cons, List.length_nil]; omega)
        (fun b hb a ha => by
          rcases List.mem_append.mp ha with ha2 | ha2
          · exact hwin b (List.mem_cons_of_mem _ hb) a ha2
          · have hbt := (List.pairwise_cons.mp hpair).1 b hb
            rw [List.mem_singleton.mp ha2]
            exact hbt)
        (List.pairwise_cons.mp hpair).2
        (by simp)
      rw [run_rate_calls_cons, hstep]
      simp only [if_pos hlt]
      constructor
      · rw [ih1]
        have hrep : N - hist.length = (N - (hist.length + 1)) + 1 := by omega
        rw [hrep, List.replicate_succ]
        simp
      · rw [ih2]
        simp

/-- C8: for a single action class with limit N and window W, a run of N + 1
calls inside one sliding window admits exactly the first N and refuses the
last; a later call whose window no longer contains any stored timestamp is
admitted again onto a fresh history; and the stored history gains the call
timestamp exactly when the call is admitted. -/
theorem c8_rate_limit_sliding_window (N W t : Nat) (ts : List Nat)
    (hN : 1 ≤ N) (hcap : N ≤ 1000) (hlen : ts.length = N + 1)
    (hpair : List.Pairwise (fun a b => b - W < a) ts)
    (hreset : ∀ x ∈ ts, x ≤ t - W) :
    (run_rate_calls N W ts []).1 = List.replicate N true ++ [false] ∧
    (run_rate_calls N W ts []).2 = ts.dropLast ∧
    check_rate_limit_with_config N W t (run_rate_calls N W ts []).2 = (true, [t]) ∧
    (∀ (m w now : Nat) (hist : List Nat),
        (check_rate_limit_with_config m w now hist).1 = true →
        (check_rate_limit_with_config m w now hist).2 =
          cap_history (prune_window w now hist) ++ [now]) ∧
    (∀ (m w now : Nat) (hist : List Nat),
        (check_rate_limit_with_config m w now hist).1 = false →
        (check_rate_limit_with_config m w now hist).2 =
          cap_history (prune_window w now hist)) := by
  have hne : ts ≠ [] := by
    intro h
    rw [h] at hlen
    simp at hlen
  obtain ⟨h1, h2⟩ := run_rate_calls_no_prune N W hcap ts []
    (by simpa using hlen) (by simp) hpair hne
  refine ⟨by simpa using h1, by simpa using h2, ?_, ?_, ?_⟩
  · rw [h2]
    have hprune0 : prune_window W t ([] ++ ts.dropLast) = [] := by
      apply List.filter_eq_nil_iff.mpr
      intro a ha
      have haw := hreset a (List.dropLast_subset ts (by simpa using ha))
      simp only [decide_eq_true_eq]
      omega
    unfold check_rate_limit_with_config
    dsimp only
    rw [hprune0]
    have hcap0 : cap_history [] = [] := by unfold cap_history; simp
    rw [hcap0]
    rw [if_pos (by simpa using hN)]
    simp
  · intro m w now hist h
    unfold check_rate_limit_with_config at h ⊢
    dsimp only at h ⊢
    split_ifs at h ⊢
    rfl
  · intro m w now hist h
    unfold check_rate_limit_with_config at h ⊢
    dsimp only at h ⊢
    split_ifs at h ⊢
    rfl

/-- A domain challenge that expires at time 10. -/
def challenge_expired : DomainVerificationChallenge :=
  { company_id := "company_1"
    domain := "acme.example"
    challenge_token := "tok123"
    created_at := 0
    expires_at := 10 }

/-- State holding the expired domain challenge. -/
def state_expired : DomainVerifyState :=
  { domain_challenge := some challenge_expired
    company := some blank_company
    rate_history := [] }

/-- A cross-chain challenge that expires at time 10. -/
def crosschain_challenge_expired : CrossChainChallenge :=
  { company_id := "company_1"
    chain_type := ChainType.Ethereum
    address_or_contract := "0xabc"
    challenge_message := "verify-msg-1"
    verification_method := CrossChainVerificationMethod.SignMessage "verify-msg-1"
    created_at := 0
    expires_at := 10 }

/-- State holding the expired cross-chain challenge. -/
def crosschain_state_expired : CrossChainVerifyState :=
  { challenge := some crosschain_challenge_expired
    company := some blank_company }

/-- An Etherscan response that does contain the challenge message, to show
expiry wins even over matching evidence. -/
def etherscan_matching_response : EtherscanHttp :=
  EtherscanHttp.response 200 (some
    { status := "1"
      message := "OK"
      result :=
        [{ hash := "0x1"
           fromAddr := "0xabc"
           toAddr := "0xdef"
           value := "0"
           input := "verify-msg-1"
           timestamp := "1" }] })

/-- Witness for C5 at time 20, with evidence that would have matched. -/
theorem c5_expired_challenge_consumed_witness :
    ((check_verification_rate_limit 20 state_expired.rate_history).1 = true ∧
      state_expired.domain_challenge = some challenge_expired ∧
      challenge_expired.expires_at < 20 ∧
      crosschain_state_expired.challenge = some crosschain_challenge_expired ∧
      crosschain_challenge_expired.expires_at < 20) ∧
    (((verify_domain_ownership 20 (HttpResult.response 200 "resp tok123 resp")
          state_expired).1 =
        RegistryOutcome.err "Domain verification challenge expired" ∧
      (verify_domain_ownership 20 (HttpResult.response 200 "resp tok123 resp")
          state_expired).2.domain_challenge = none ∧
      (verify_domain_ownership 20 (HttpResult.response 200 "resp tok123 resp")
          state_expired).2.company = state_expired.company) ∧
    ((verify_ethereum_contract 20 etherscan_matching_response "0xabc"
          crosschain_state_expired).1 =
        RegistryOutcome.err "Cross-chain verification challenge expired" ∧
      (verify_ethereum_contract 20 etherscan_matching_response "0xabc"
          crosschain_state_expired).2.challenge = none ∧
      (verify_ethereum_contract 20 etherscan_matching_response "0xabc"
          crosschain_state_expired).2.company = crosschain_state_expired.company)) := by
  have h := c5_expired_challenge_consumed 20 (HttpResult.response 200 "resp tok123 resp")
    state_expired challenge_expired etherscan_matching_response "0xabc"
    crosschain_state_expired crosschain_challenge_expired
    (by decide) rfl (by decide) rfl (by decide)
  exact ⟨⟨by decide, rfl, by decide, rfl, by decide⟩, h⟩

/-- A domain challenge that is still valid at time 50. -/
def challenge_live : DomainVerificationChallenge :=
  { company_id := "company_1"
    domain := "acme.example"
    challenge_token := "tok123"
    created_at := 0
    expires_at := 100 }

/-- State holding the live domain challenge. -/
def state_live : DomainVerifyState :=
  { domain_challenge := some challenge_live
    company := some blank_company
    rate_history := [] }

/-- Witness for C6: a successful verification at time 50 followed by a second
call at time 60. -/
theorem c6_challenge_single_use_witness :
    ((check_verification_rate_limit 50 state_live.rate_history).1 = true ∧
      state_live.domain_challenge = some challenge_live ∧
      ¬ challenge_live.expires_at < 50 ∧
      str_contains "resp tok123 resp" challenge_live.challenge_token = true ∧
      state_live.company = some blank_company ∧
      (check_verification_rate_limit 60
          (verify_domain_ownership 50 (HttpResult.response 200 "resp tok123 resp")
            state_live).2.rate_history).1 = true) ∧
    ((verify_domain_ownership 50 (HttpResult.response 200 "resp tok123 resp") state_live).1 =
        RegistryOutcome.ok true "Domain verified successfully" (some 50) ∧
      (verify_domain_ownership 50 (HttpResult.response 200 "resp tok123 resp")
          state_live).2.domain_challenge = none ∧
      (verify_domain_ownership 60 (HttpResult.failed "offline")
          (verify_domain_ownership 50 (HttpResult.response 200 "resp tok123 resp")
            state_live).2).1 =
        RegistryOutcome.err "No domain verification challenge found. Create one first.") := by
  have h := c6_challenge_single_use 50 60 "resp tok123 resp" (HttpResult.failed "offline")
    state_live challenge_live blank_company
    (by decide) rfl (by decide) (by decide) rfl (by decide)
  exact ⟨⟨by decide, rfl, by decide, by decide, rfl, by decide⟩, h⟩

/-- Witness for C8: limit 2, window 60, three calls at 100, 110, 120, then a
reset call at 200; the frame facts instantiated at small concrete inputs. -/
theorem c8_rate_limit_sliding_window_witness :
    (1 ≤ 2 ∧ 2 ≤ 1000 ∧ ([100, 110, 120] : List Nat).length = 2 + 1 ∧
      List.Pairwise (fun a b => b - 60 < a) [100, 110, 120] ∧
      ∀ x ∈ ([100, 110, 120] : List Nat), x ≤ 200 - 60) ∧
    ((run_rate_calls 2 60 [100, 110, 120] []).1 = List.replicate 2 true ++ [false] ∧
      (run_rate_calls 2 60 [100, 110, 120] []).2 = ([100, 110, 120] : List Nat).dropLast ∧
      check_rate_limit_with_config 2 60 200 (run_rate_calls 2 60 [100, 110, 120] []).2 =
        (true, [200]) ∧
      (check_rate_limit_with_config 1 5 9 []).2 =
        cap_history (prune_window 5 9 []) ++ [9] ∧
      (check_rate_limit_with_config 1 5 9 [9]).2 =
        cap_history (prune_window 5 9 [9])) := by
  have h := c8_rate_limit_sliding_window 2 60 200 [100, 110, 120]
    (by decide) (by decide) (by decide) (by decide) (by decide)
  exact ⟨⟨by decide, by decide, by decide, by decide, by decide⟩,
    h.1, h.2.1, h.2.2.1, h.2.2.2.1 1 5 9 [] (by decide), h.2.2.2.2 1 5 9 [9] (by decide)⟩

end CrossChainRegistry
